import Mathlib

/-!
Verification of the showcase-portfolio scene logic: the tri-band toon
shader (`ThreeBandToonMaterial`), the stepped gradient-texture generator
(`createGradientTexture`), the idle yaw animation of the laptop and
building roots, the popup-overlay state machine
(`KillerBuildingWithPopup`), and the silhouette-outline mesh system.
Each definition is a shallow embedding of the corresponding source
function or JSX fragment.
-/

namespace Portfolio

/-! ### Colors and vectors -/

/-- An RGB color with rational channel values in `[0, 1]`, as produced by
`THREE.Color` from a hex literal. -/
structure Color3 where
  r : ℚ
  g : ℚ
  b : ℚ
deriving DecidableEq

/-- A three-component real vector (`vec3` in the shader). -/
structure Vec3 where
  x : ℝ
  y : ℝ
  z : ℝ

/-- GLSL `dot` on `vec3`. -/
def dot3 (a b : Vec3) : ℝ :=
  a.x * b.x + a.y * b.y + a.z * b.z

/-- GLSL `normalize`: divide each component by the Euclidean length. -/
noncomputable def normalize3 (v : Vec3) : Vec3 :=
  ⟨v.x / Real.sqrt (dot3 v v), v.y / Real.sqrt (dot3 v v), v.z / Real.sqrt (dot3 v v)⟩

/-! ### ThreeBandToonMaterial fragment shader
Source: `src/materials/ThreeBandToonMaterial` fragment program:
`float ndl = max(0.0, dot(normalize(vNormalW), normalize(lightDir)));`
`vec3 col = ndl < t1 ? colorA : (ndl < t2 ? colorB : colorC);`
`gl_FragColor = vec4(col, 1.0);` -/

/-- `ndl` as computed by the fragment shader. -/
noncomputable def toonNdl (n lightDir : Vec3) : ℝ :=
  max 0 (dot3 (normalize3 n) (normalize3 lightDir))

/-- The RGBA value written to `gl_FragColor`. -/
structure FragColor where
  rgb : Color3
  alpha : ℝ

open Classical in
/-- The nested GLSL conditional selecting among the three band colors. -/
noncomputable def bandSelect (t1 t2 : ℝ) (colorA colorB colorC : Color3) (ndl : ℝ) : Color3 :=
  if ndl < t1 then colorA else if ndl < t2 then colorB else colorC

/-- The full fragment shader: band selection applied to `ndl`, alpha `1.0`. -/
noncomputable def toonFragment (t1 t2 : ℝ) (colorA colorB colorC : Color3)
    (normal lightDir : Vec3) : FragColor :=
  ⟨bandSelect t1 t2 colorA colorB colorC (toonNdl normal lightDir), 1⟩

/-- Default uniform `colorA` of the material: `#000000`. -/
def toonColorA : Color3 := ⟨0, 0, 0⟩

/-- Default uniform `colorB` of the material: `#514f8f`. -/
def toonColorB : Color3 := ⟨81 / 255, 79 / 255, 143 / 255⟩

/-- Default uniform `colorC` of the material: `#a99d9b`. -/
def toonColorC : Color3 := ⟨169 / 255, 157 / 255, 155 / 255⟩

/-! ### createGradientTexture (KillerLaptop.jsx lines 13-29)
`const t = Math.floor((i / size) * steps) / (steps - 1)` with `size = 256`,
`const c = Math.round(t * 255)`, stored three times (R, G, B) per texel of
a `Uint8Array(3 * size)`. -/

/-- The value `c = Math.round(t * 255)` for sample `i` with the given step
count, before `Uint8Array` storage.  JS `Math.round` rounds half-up, which
is Mathlib `round` on `ℚ`. -/
def gradientGray (steps i : ℕ) : ℤ :=
  round ((((⌊((i : ℚ) / 256) * (steps : ℚ)⌋ : ℤ) : ℚ) / ((steps : ℚ) - 1)) * 255)

/-- The byte actually stored in the `Uint8Array` (values are reduced
mod 2^8 on storage). -/
def gradientByte (steps i : ℕ) : ℕ :=
  (gradientGray steps i % 256).toNat

/-- The flat RGB data of the texture: for each of the 256 samples the gray
byte is written to slots `3i`, `3i+1` and `3i+2`. -/
def createGradientTextureData (steps : ℕ) : List ℕ :=
  (List.range 256).flatMap fun i =>
    [gradientByte steps i, gradientByte steps i, gradientByte steps i]

/-- The per-texel gray value of the 256-entry lookup table (all three
channels of a texel are equal). -/
def graySamples (steps : ℕ) : List ℕ :=
  (List.range 256).map (gradientByte steps)

/-! ### Idle yaw animation
KillerLaptop.jsx: `groupRef.current.rotation.y = Math.sin(t * 0.2) * 0.3`.
KillerBuilding.jsx: `ref.current.rotation.y = Math.sin(t * 0.15) * 0.1`.
Each frame overwrites the previous yaw with a pure function of the elapsed
time, so the step takes the previous yaw and ignores it. -/

/-- One animation step of the laptop root: the new yaw assigned at elapsed
time `t`, given the yaw left over from the previous frame. -/
noncomputable def laptopYawStep (t _prevYaw : ℝ) : ℝ :=
  Real.sin (t * 0.2) * 0.3

/-- One animation step of the building root. -/
noncomputable def buildingYawStep (t _prevYaw : ℝ) : ℝ :=
  Real.sin (t * 0.15) * 0.1

/-! ### Popup overlay (KillerBuildingWithPopup.jsx)
The component keeps two pieces of state, `activePopup` (the id of the
currently active window, or null) and `codeContent` (the stored code
text).  The `windowConfigs` object maps the four window tags to their
static title, accent color and initial code. -/

/-- One entry of the `windowConfigs` object. -/
structure WindowConfig where
  title : String
  color : String
  initialCode : String
deriving DecidableEq

/-- Initial code text of the `bottom-left` window config. -/
def bottomLeftCode : String :=
  "// React Component Example\nimport React, \x7b useState \x7d from \x27react\x27;\n\nfunction MyComponent() \x7b\n  const [count, setCount] = useState(0);\n  \n  return (\n    <div>\n      <h1>Count: \x7bcount\x7d</h1>\n      <button onClick=\x7b() => setCount(count + 1)\x7d>\n        Increment\n      </button>\n    </div>\n  );\n\x7d\n\nexport default MyComponent;"

/-- Initial code text of the `bottom-right` window config. -/
def bottomRightCode : String :=
  "// Express.js API Example\nconst express = require(\x27express\x27);\nconst app = express();\n\napp.use(express.json());\n\napp.get(\x27/api/users\x27, (req, res) => \x7b\n  res.json([\n    \x7b id: 1, name: \x27John Doe\x27 \x7d,\n    \x7b id: 2, name: \x27Jane Smith\x27 \x7d\n  ]);\n\x7d);\n\napp.post(\x27/api/users\x27, (req, res) => \x7b\n  const \x7b name \x7d = req.body;\n  const newUser = \x7b id: Date.now(), name \x7d;\n  res.status(201).json(newUser);\n\x7d);\n\napp.listen(3000, () => \x7b\n  console.log(\x27Server running on port 3000\x27);\n\x7d);"

/-- Initial code text of the `top-left` window config. -/
def topLeftCode : String :=
  "-- SQL Database Schema Example\nCREATE TABLE users (\n  id SERIAL PRIMARY KEY,\n  username VARCHAR(50) UNIQUE NOT NULL,\n  email VARCHAR(100) UNIQUE NOT NULL,\n  created_at TIMESTAMP DEFAULT CURRENT_TIMESTAMP\n);\n\nCREATE TABLE posts (\n  id SERIAL PRIMARY KEY,\n  user_id INTEGER REFERENCES users(id),\n  title VARCHAR(200) NOT NULL,\n  content TEXT,\n  created_at TIMESTAMP DEFAULT CURRENT_TIMESTAMP\n);\n\n-- Insert sample data\nINSERT INTO users (username, email) VALUES \n  (\x27john_doe\x27, \x27john@example.com\x27),\n  (\x27jane_smith\x27, \x27jane@example.com\x27);\n\nINSERT INTO posts (user_id, title, content) VALUES \n  (1, \x27My First Post\x27, \x27This is the content of my first post.\x27),\n  (2, \x27Hello World\x27, \x27Just saying hello to everyone!\x27);"

/-- Initial code text of the `top-right` window config. -/
def topRightCode : String :=
  "# Docker Compose Example\nversion: \x273.8\x27\n\nservices:\n  web:\n    build: .\n    ports:\n      - \"3000:3000\"\n    environment:\n      - NODE_ENV=production\n      - DATABASE_URL=postgresql://user:pass@db:5432/mydb\n    depends_on:\n      - db\n\n  db:\n    image: postgres:13\n    environment:\n      - POSTGRES_DB=mydb\n      - POSTGRES_USER=user\n      - POSTGRES_PASSWORD=pass\n    volumes:\n      - postgres_data:/var/lib/postgresql/data\n\nvolumes:\n  postgres_data:"

/-- The `bottom-left` entry of `windowConfigs`. -/
def bottomLeftConfig : WindowConfig :=
  ⟨"Frontend Development", "#ff6b6b", bottomLeftCode⟩

/-- The `bottom-right` entry of `windowConfigs`. -/
def bottomRightConfig : WindowConfig :=
  ⟨"Backend Development", "#4ecdc4", bottomRightCode⟩

/-- The `top-left` entry of `windowConfigs`. -/
def topLeftConfig : WindowConfig :=
  ⟨"Database Design", "#45b7d1", topLeftCode⟩

/-- The `top-right` entry of `windowConfigs`. -/
def topRightConfig : WindowConfig :=
  ⟨"DevOps & Deployment", "#f9ca24", topRightCode⟩

/-- The `windowConfigs` lookup: `windowConfigs[windowId]`, `none` for ids
outside the four configured tags. -/
def windowConfigs (windowId : String) : Option WindowConfig :=
  if windowId = "bottom-left" then some bottomLeftConfig
  else if windowId = "bottom-right" then some bottomRightConfig
  else if windowId = "top-left" then some topLeftConfig
  else if windowId = "top-right" then some topRightConfig
  else none

/-- The keys of `windowConfigs` in object order, as enumerated by
`Object.entries` when the component renders one `CodeEditorPopup` per
config. -/
def windowIds : List String :=
  ["bottom-left", "bottom-right", "top-left", "top-right"]

/-- The state held by `KillerBuildingWithPopup`: `useState(null)` for the
active popup id and `useState('')` for the stored code text. -/
structure OverlayState where
  activePopup : Option String
  codeContent : String
deriving DecidableEq

/-- The overlay state right after mount. -/
def initialOverlayState : OverlayState :=
  ⟨none, ""⟩

/-- `handleWindowClick`: store the notified id unconditionally, and load
the config's initial code only when the id has a config. -/
def handleWindowClick (s : OverlayState) (windowId : String) : OverlayState :=
  let s1 : OverlayState := { s with activePopup := some windowId }
  match windowConfigs windowId with
  | some config => { s1 with codeContent := config.initialCode }
  | none => s1

/-- `handleClosePopup`: clear the active popup id. -/
def handleClosePopup (s : OverlayState) : OverlayState :=
  { s with activePopup := none }

/-- `handleCodeChange`: overwrite the stored code text. -/
def handleCodeChange (s : OverlayState) (newCode : String) : OverlayState :=
  { s with codeContent := newCode }

/-- `isVisible` prop of the popup rendered for `windowId`:
`activePopup === windowId`. -/
def popupVisible (s : OverlayState) (windowId : String) : Bool :=
  s.activePopup = some windowId

/-- The ids whose popup is rendered (its `CodeEditorPopup` call does not
return null). -/
def visiblePopups (s : OverlayState) : List String :=
  windowIds.filter (fun windowId => popupVisible s windowId)

/-! ### Full UI model including each popup's local editor buffer
`CodeEditorPopup` seeds a local `code` state from its `initialCode` prop
with `useState(initialCode)`.  All four popups are mounted permanently
(an invisible one renders null but keeps its state), so the seed is taken
once at mount and afterwards the buffer changes only through the
textarea's change handler. -/

/-- The whole overlay UI: the component state plus the local `code`
buffer of each of the four mounted `CodeEditorPopup` instances. -/
structure UIState where
  overlay : OverlayState
  localCode : String → String

/-- The UI right after mount: every popup's buffer holds its config's
initial code. -/
def uiInit : UIState :=
  ⟨initialOverlayState, fun windowId =>
    match windowConfigs windowId with
    | some config => config.initialCode
    | none => ""⟩

/-- Typing in the visible popup's textarea: the local buffer is set and
`onCodeChange` propagates the text to the overlay's stored code. -/
def uiEdit (u : UIState) (newCode : String) : UIState :=
  match u.overlay.activePopup with
  | some windowId =>
      if (windowConfigs windowId).isSome then
        ⟨handleCodeChange u.overlay newCode,
         fun w => if w = windowId then newCode else u.localCode w⟩
      else u
  | none => u

/-- The events the overlay UI reacts to. -/
inductive UIEvent where
  | notify (windowId : String)
  | close
  | edit (newCode : String)

/-- One UI transition. -/
def uiStep (u : UIState) : UIEvent → UIState
  | .notify windowId => { u with overlay := handleWindowClick u.overlay windowId }
  | .close => { u with overlay := handleClosePopup u.overlay }
  | .edit newCode => uiEdit u newCode

/-- Run an event sequence from the freshly mounted UI. -/
def uiRun (events : List UIEvent) : UIState :=
  events.foldl uiStep uiInit

/-! ### Silhouette-outline meshes
Shallow embedding of the outline duplicate meshes and the source meshes
they duplicate, from the laptop assembly (KillerLaptop.jsx) and the
building assembly (KillerBuilding.jsx).  A mesh is recorded by the chain
of scene-graph transforms from the assembly root down to the mesh
(outermost first, the mesh's own `position`/`rotation` last), its
geometry, and its material. -/

/-- A single scene-graph transform step (`position`, `scale` or
`rotation` prop of a `group`/`mesh`). -/
inductive XOp where
  | translate (x y z : ℚ)
  | scaleVec (kx ky kz : ℚ)
  | rotX (radians : ℝ)

/-- Geometry of a mesh (only boxes occur among the outline meshes and
their sources). -/
inductive Geom where
  | box (w h d : ℚ)
deriving DecidableEq

/-- Which faces a material renders. -/
inductive FaceSide where
  | front
  | back
deriving DecidableEq

/-- Material of a mesh: the custom toon material, or an unlit
`meshBasicMaterial` with a face side. -/
inductive Mat where
  | toon (colorA colorB colorC : Color3) (t1 t2 : ℚ)
  | basic (color : Color3) (side : FaceSide)
deriving DecidableEq

/-- A mesh with its ancestor transform chain, geometry and material. -/
structure MeshSpec where
  chain : List XOp
  geom : Geom
  mat : Mat

/-- Apply one transform step to a point. -/
noncomputable def applyOp : XOp → Vec3 → Vec3
  | .translate x y z, v => ⟨(x : ℝ) + v.x, (y : ℝ) + v.y, (z : ℝ) + v.z⟩
  | .scaleVec kx ky kz, v => ⟨(kx : ℝ) * v.x, (ky : ℝ) * v.y, (kz : ℝ) * v.z⟩
  | .rotX θ, v =>
      ⟨v.x, Real.cos θ * v.y - Real.sin θ * v.z, Real.sin θ * v.y + Real.cos θ * v.z⟩

/-- Map a local point of a mesh to assembly coordinates through the
mesh's transform chain. -/
noncomputable def applyChain (chain : List XOp) (v : Vec3) : Vec3 :=
  chain.foldr applyOp v

/-- The origin point. -/
def origin3 : Vec3 := ⟨0, 0, 0⟩

/-- Uniform scaling of a point about the origin. -/
def smul3 (k : ℝ) (v : Vec3) : Vec3 :=
  ⟨k * v.x, k * v.y, k * v.z⟩

/-- `#a99d9b`, the `edgeColor` of the laptop and the flat color of the
building silhouette. -/
def silhouetteColor : Color3 := ⟨169 / 255, 157 / 255, 155 / 255⟩

/-- `#2b2958` and `#bfb3ad`, bands B and C of the laptop body toon
material. -/
def laptopBodyMat : Mat :=
  .toon ⟨0, 0, 0⟩ ⟨43 / 255, 41 / 255, 88 / 255⟩ ⟨191 / 255, 179 / 255, 173 / 255⟩
    (33 / 100) (66 / 100)

/-- The building's steel toon material (`#2c3e50`/`#34495e`/`#7f8c8d`). -/
def buildingSteelMat : Mat :=
  .toon ⟨44 / 255, 62 / 255, 80 / 255⟩ ⟨52 / 255, 73 / 255, 94 / 255⟩ ⟨127 / 255, 140 / 255, 141 / 255⟩
    (33 / 100) (66 / 100)

/-- Laptop base slab: `group [0,0,0]` / `mesh [0, 0.05, 0]`,
`boxGeometry [2.4, 0.1, 1.6]`. -/
def laptopBaseSrc : MeshSpec :=
  ⟨[.translate 0 0 0, .translate 0 (5 / 100) 0], .box (24 / 10) (1 / 10) (16 / 10),
    laptopBodyMat⟩

/-- Laptop keyboard plate: `mesh [0, 0.11, 0]`, `boxGeometry [2.2, 0.02, 1.4]`. -/
def laptopPlateSrc : MeshSpec :=
  ⟨[.translate 0 0 0, .translate 0 (11 / 100) 0], .box (22 / 10) (2 / 100) (14 / 10),
    laptopBodyMat⟩

/-- Laptop touchpad: `mesh [0.5, 0.12, 0.3]`, `boxGeometry [0.5, 0.005, 0.35]`. -/
def laptopTouchpadSrc : MeshSpec :=
  ⟨[.translate 0 0 0, .translate (5 / 10) (12 / 100) (3 / 10)],
    .box (5 / 10) (5 / 1000) (35 / 100), laptopBodyMat⟩

/-- Laptop lid frame: `Lid` group `[0, 0.12, -0.75]`, rotating group
`[openRadians = -0.6, 0, 0]`, `mesh [0, 0.7, 0]`,
`boxGeometry [2.2, 1.4, 0.08]`. -/
def laptopLidSrc : MeshSpec :=
  ⟨[.translate 0 (12 / 100) (-75 / 100), .rotX (-0.6), .translate 0 (7 / 10) 0],
    .box (22 / 10) (14 / 10) (8 / 100), laptopBodyMat⟩

/-- The laptop outline wrapper `group scale={[1.02, 1.02, 1.02]}`. -/
def outlineScale : XOp := .scaleVec (102 / 100) (102 / 100) (102 / 100)

/-- Outline duplicate of the laptop base slab. -/
def laptopBaseOutline : MeshSpec :=
  ⟨[outlineScale, .translate 0 (5 / 100) 0], .box (24 / 10) (1 / 10) (16 / 10),
    .basic silhouetteColor .back⟩

/-- Outline duplicate of the laptop keyboard plate. -/
def laptopPlateOutline : MeshSpec :=
  ⟨[outlineScale, .translate 0 (11 / 100) 0], .box (22 / 10) (2 / 100) (14 / 10),
    .basic silhouetteColor .back⟩

/-- Outline duplicate of the laptop touchpad. -/
def laptopTouchpadOutline : MeshSpec :=
  ⟨[outlineScale, .translate (5 / 10) (12 / 100) (3 / 10)],
    .box (5 / 10) (5 / 1000) (35 / 100), .basic silhouetteColor .back⟩

/-- Outline duplicate of the laptop lid frame, in the same open pose. -/
def laptopLidOutline : MeshSpec :=
  ⟨[outlineScale, .translate 0 (12 / 100) (-75 / 100), .rotX (-0.6), .translate 0 (7 / 10) 0],
    .box (22 / 10) (14 / 10) (8 / 100), .basic silhouetteColor .back⟩

/-- Building main structure: `mesh [0, 1.5, 0]`, `boxGeometry [6, 3, 3]`. -/
def buildingMainSrc : MeshSpec :=
  ⟨[.translate 0 (15 / 10) 0], .box 6 3 3, buildingSteelMat⟩

/-- Building roof: `mesh [0, 3.1, 1.60]`, `boxGeometry [6.2, 0.15, 0.15]`. -/
def buildingRoofSrc : MeshSpec :=
  ⟨[.translate 0 (31 / 10) (160 / 100)], .box (62 / 10) (15 / 100) (15 / 100),
    buildingSteelMat⟩

/-- Building main silhouette: outline group, `mesh [0, 1.5, 0]`,
`boxGeometry [6, 3, 3]`. -/
def buildingMainOutline : MeshSpec :=
  ⟨[outlineScale, .translate 0 (15 / 10) 0], .box 6 3 3, .basic silhouetteColor .back⟩

/-- Building roof silhouette: outline group, `mesh [0, 3.1, 1.55]`,
`boxGeometry [6.2, 0.2, 0.2]`. -/
def buildingRoofOutline : MeshSpec :=
  ⟨[outlineScale, .translate 0 (31 / 10) (155 / 100)], .box (62 / 10) (2 / 10) (2 / 10),
    .basic silhouetteColor .back⟩

/-- The outline duplicate meshes of both assemblies, each paired with the
source mesh it duplicates. -/
def outlineSourcePairs : List (MeshSpec × MeshSpec) :=
  [(laptopBaseOutline, laptopBaseSrc),
   (laptopPlateOutline, laptopPlateSrc),
   (laptopTouchpadOutline, laptopTouchpadSrc),
   (laptopLidOutline, laptopLidSrc),
   (buildingMainOutline, buildingMainSrc),
   (buildingRoofOutline, buildingRoofSrc)]

/-- The pairs whose outline repeats the source transform and geometry
exactly (all pairs except the building roof). -/
def exactOutlinePairs : List (MeshSpec × MeshSpec) :=
  [(laptopBaseOutline, laptopBaseSrc),
   (laptopPlateOutline, laptopPlateSrc),
   (laptopTouchpadOutline, laptopTouchpadSrc),
   (laptopLidOutline, laptopLidSrc),
   (buildingMainOutline, buildingMainSrc)]

/-- The claimed relation between an outline mesh and its source: the
outline's placement is the source's placement composed with a uniform
scaling about the source mesh's own local origin. -/
def scaledAboutSourceOrigin (o s : MeshSpec) : Prop :=
  ∃ k : ℝ, ∀ v : Vec3, applyChain o.chain v = applyChain s.chain (smul3 k v)

end Portfolio

namespace Portfolio

/-- C1: the ThreeBandToonMaterial fragment shader computes
`ndl = max(0, dot(normalize(n), normalize(l)))` and returns exactly
`colorA` when `ndl < t1`, `colorB` when `t1 ≤ ndl < t2`, and `colorC`
otherwise, at full opacity; in particular for `t1 = 0.33`, `t2 = 0.66`
the samples `ndl = 0.0, 0.33, 0.65, 0.66, 1.0` select
`colorA, colorB, colorB, colorC, colorC` (the `t1` boundary belongs to
band B). -/
theorem toon_shader_band_selection (t1 t2 : ℝ) (cA cB cC : Color3) (n l : Vec3) :
    toonNdl n l = max 0 (dot3 (normalize3 n) (normalize3 l)) ∧
    (toonFragment t1 t2 cA cB cC n l).alpha = 1 ∧
    (toonNdl n l < t1 → (toonFragment t1 t2 cA cB cC n l).rgb = cA) ∧
    (t1 ≤ toonNdl n l → toonNdl n l < t2 → (toonFragment t1 t2 cA cB cC n l).rgb = cB) ∧
    (t1 ≤ toonNdl n l → t2 ≤ toonNdl n l → (toonFragment t1 t2 cA cB cC n l).rgb = cC) ∧
    (toonNdl n l = 0 → (toonFragment 0.33 0.66 cA cB cC n l).rgb = cA) ∧
    (toonNdl n l = 0.33 → (toonFragment 0.33 0.66 cA cB cC n l).rgb = cB) ∧
    (toonNdl n l = 0.65 → (toonFragment 0.33 0.66 cA cB cC n l).rgb = cB) ∧
    (toonNdl n l = 0.66 → (toonFragment 0.33 0.66 cA cB cC n l).rgb = cC) ∧
    (toonNdl n l = 1 → (toonFragment 0.33 0.66 cA cB cC n l).rgb = cC) := by
  refine ⟨rfl, rfl, ?_, ?_, ?_, ?_, ?_, ?_, ?_, ?_⟩ <;>
    simp only [toonFragment, bandSelect]
  · intro h
    rw [if_pos h]
  · intro h1 h2
    rw [if_neg (not_lt.mpr h1), if_pos h2]
  · intro h1 h2
    rw [if_neg (not_lt.mpr h1), if_neg (not_lt.mpr h2)]
  · intro h
    rw [h, if_pos (by norm_num)]
  · intro h
    rw [h, if_neg (by norm_num), if_pos (by norm_num)]
  · intro h
    rw [h, if_neg (by norm_num), if_pos (by norm_num)]
  · intro h
    rw [h, if_neg (by norm_num), if_neg (by norm_num)]
  · intro h
    rw [h, if_neg (by norm_num), if_neg (by norm_num)]

/-- Witness for C1: a normal pointing straight at the light
(`n = l = (0,0,1)`) has `ndl = 1` and is shaded with `colorC` under the
default palette and thresholds. -/
theorem toon_shader_band_selection_witness :
    (toonFragment 0.33 0.66 toonColorA toonColorB toonColorC ⟨0, 0, 1⟩ ⟨0, 0, 1⟩).rgb
      = toonColorC := by
  have hndl : toonNdl ⟨0, 0, 1⟩ ⟨0, 0, 1⟩ = 1 := by
    have h1 : dot3 ⟨0, 0, 1⟩ ⟨0, 0, 1⟩ = 1 := by
      simp [dot3]
    simp [toonNdl, normalize3, dot3, h1, Real.sqrt_one]
  exact (toon_shader_band_selection 0.33 0.66 toonColorA toonColorB toonColorC
    ⟨0, 0, 1⟩ ⟨0, 0, 1⟩).2.2.2.2.2.2.2.2.2 hndl

/-- Writing the same value to slots `3i`, `3i+1`, `3i+2` for each
`i < m` yields the list indexed by `j ↦ f (j / 3)`. -/
theorem range_flatMap_triple (f : ℕ → ℕ) (m : ℕ) :
    ((List.range m).flatMap fun i => [f i, f i, f i]) =
      (List.range (3 * m)).map fun j => f (j / 3) := by
  induction m with
  | zero => rfl
  | succ m ih =>
    have hsplit : List.range (3 * (m + 1)) = List.range (3 * m) ++ [3 * m, 3 * m + 1, 3 * m + 2] := by
      have e1 : 3 * (m + 1) = (3 * m + 2) + 1 := by ring
      have e2 : 3 * m + 2 = (3 * m + 1) + 1 := by ring
      have e3 : 3 * m + 1 = (3 * m) + 1 := rfl
      rw [e1, List.range_succ, e2, List.range_succ, e3, List.range_succ]
      simp
    have d0 : 3 * m / 3 = m := by omega
    have d1 : (3 * m + 1) / 3 = m := by omega
    have d2 : (3 * m + 2) / 3 = m := by omega
    rw [List.range_succ, List.flatMap_append, ih, hsplit, List.map_append]
    simp [d0, d1, d2]

/-- C2: for every step count `n ≥ 2` the generated lookup table holds
256 RGB texels (768 bytes); all three channels of texel `i` hold the
byte `round(255 * (floor((i/256)*n) / (n-1)))`, which survives
`Uint8Array` storage unchanged, stays in `[0, 255]`, and is one of the
`n` evenly spaced gray levels `round(255 * k/(n-1))`, `k ≤ n-1`. -/
theorem gradient_lookup_table (n i : ℕ) (hn : 2 ≤ n) (hi : i < 256) :
    (createGradientTextureData n).length = 3 * 256 ∧
    (createGradientTextureData n)[3 * i]? = some (gradientByte n i) ∧
    (createGradientTextureData n)[3 * i + 1]? = some (gradientByte n i) ∧
    (createGradientTextureData n)[3 * i + 2]? = some (gradientByte n i) ∧
    (gradientByte n i : ℤ) = gradientGray n i ∧
    gradientByte n i ≤ 255 ∧
    ∃ k ≤ n - 1, (gradientByte n i : ℤ) = round (((k : ℚ) / ((n : ℚ) - 1)) * 255) := by
  obtain ⟨m, hm⟩ : ∃ m : ℤ, ⌊((i : ℚ) / 256) * (n : ℚ)⌋ = m := ⟨_, rfl⟩
  have hgray : gradientGray n i = round (((m : ℚ) / ((n : ℚ) - 1)) * 255) := by
    rw [gradientGray, hm]
  have hn1 : (1 : ℚ) ≤ (n : ℚ) - 1 := by
    have h2 : (2 : ℚ) ≤ (n : ℚ) := by exact_mod_cast hn
    linarith
  have hm0 : 0 ≤ m := by
    rw [← hm]
    exact Int.floor_nonneg.mpr (by positivity)
  have hmlt : m < (n : ℤ) := by
    rw [← hm]
    apply Int.floor_lt.mpr
    have hi' : (i : ℚ) < 256 := by exact_mod_cast hi
    have hn0 : (0 : ℚ) < (n : ℚ) := by linarith
    have hlt1 : (i : ℚ) / 256 < 1 := by
      rw [div_lt_one (by norm_num)]
      exact hi'
    calc (i : ℚ) / 256 * (n : ℚ) < 1 * (n : ℚ) :=
          mul_lt_mul_of_pos_right hlt1 hn0
      _ = ((n : ℤ) : ℚ) := by push_cast; ring
  have hmq0 : (0 : ℚ) ≤ (m : ℚ) := by exact_mod_cast hm0
  have hmq1 : (m : ℚ) ≤ (n : ℚ) - 1 := by
    have h1 : (m : ℚ) < (n : ℚ) := by exact_mod_cast hmlt
    have h2 : m + 1 ≤ (n : ℤ) := hmlt
    have : (m : ℚ) + 1 ≤ (n : ℚ) := by exact_mod_cast h2
    linarith
  have hx0 : (0 : ℚ) ≤ (m : ℚ) / ((n : ℚ) - 1) * 255 := by positivity
  have hx255 : (m : ℚ) / ((n : ℚ) - 1) * 255 ≤ 255 := by
    have hdiv : (m : ℚ) / ((n : ℚ) - 1) ≤ 1 := (div_le_one (by linarith)).mpr hmq1
    nlinarith
  have hg0 : 0 ≤ gradientGray n i := by
    rw [hgray, round_eq]
    exact Int.floor_nonneg.mpr (by linarith)
  have hg255 : gradientGray n i ≤ 255 := by
    rw [hgray, round_eq]
    have hlt : (m : ℚ) / ((n : ℚ) - 1) * 255 + 1 / 2 < ((256 : ℤ) : ℚ) := by
      push_cast
      linarith
    have := Int.floor_lt.mpr hlt
    omega
  have hbyte : (gradientByte n i : ℤ) = gradientGray n i := by
    rw [gradientByte, Int.emod_eq_of_lt hg0 (by omega), Int.toNat_of_nonneg hg0]
  have hdata : createGradientTextureData n =
      (List.range (3 * 256)).map fun j => gradientByte n (j / 3) := by
    simp only [createGradientTextureData]
    exact range_flatMap_triple (gradientByte n) 256
  refine ⟨?_, ?_, ?_, ?_, hbyte, ?_, ?_⟩
  · rw [hdata]
    simp
  · rw [hdata, List.getElem?_map, List.getElem?_range (by omega)]
    have hdiv3 : 3 * i / 3 = i := by omega
    simp [hdiv3]
  · rw [hdata, List.getElem?_map, List.getElem?_range (by omega)]
    have hdiv3 : (3 * i + 1) / 3 = i := by omega
    simp [hdiv3]
  · rw [hdata, List.getElem?_map, List.getElem?_range (by omega)]
    have hdiv3 : (3 * i + 2) / 3 = i := by omega
    simp [hdiv3]
  · have : (gradientByte n i : ℤ) ≤ 255 := by rw [hbyte]; exact hg255
    exact_mod_cast this
  · refine ⟨m.toNat, by omega, ?_⟩
    have hc : ((m.toNat : ℕ) : ℚ) = (m : ℚ) := by
      exact_mod_cast congrArg (fun z : ℤ => (z : ℚ)) (Int.toNat_of_nonneg hm0)
    rw [hbyte, hgray, hc]

/-- Witness for C2: step count 3 at sample 100 — texel 100 starts at
byte 300 and the stored byte is at most 255. -/
theorem gradient_lookup_table_witness :
    (createGradientTextureData 3)[3 * 100]? = some (gradientByte 3 100) ∧
    gradientByte 3 100 ≤ 255 := by
  have h := gradient_lookup_table 3 100 (by decide) (by decide)
  exact ⟨h.2.1, h.2.2.2.2.2.1⟩

/-- Closed form of the three-step gradient byte: samples below 86 are
black, samples 86 to 170 are mid gray 128, the rest are white 255. -/
theorem gradientByte_three (i : ℕ) (hi : i < 256) :
    gradientByte 3 i = if i < 86 then 0 else if i < 171 then 128 else 255 := by
  have hx : ((i : ℚ) / 256) * ((3 : ℕ) : ℚ) = ((3 * i : ℕ) : ℚ) / ((256 : ℕ) : ℚ) := by
    push_cast
    ring
  have hfl : ⌊((i : ℚ) / 256) * ((3 : ℕ) : ℚ)⌋ = ((3 * i / 256 : ℕ) : ℤ) := by
    rw [hx, ← Int.natCast_floor_eq_floor (by positivity), Nat.floor_div_eq_div]
  have hgray : gradientGray 3 i =
      round ((((3 * i / 256 : ℕ) : ℤ) : ℚ) / (((3 : ℕ) : ℚ) - 1) * 255) := by
    rw [gradientGray, hfl]
  rcases lt_or_le i 86 with h86 | h86
  · have hq : 3 * i / 256 = 0 := by omega
    have hg : gradientGray 3 i = 0 := by
      rw [hgray, hq]
      norm_num
    rw [gradientByte, hg, if_pos h86]
    decide
  · rcases lt_or_le i 171 with h171 | h171
    · have hq : 3 * i / 256 = 1 := by omega
      have hg : gradientGray 3 i = 128 := by
        rw [hgray, hq, round_eq]
        have harg : ((((1 : ℕ) : ℤ) : ℚ) / (((3 : ℕ) : ℚ) - 1) * 255) + 1 / 2
            = ((128 : ℤ) : ℚ) := by
          push_cast
          norm_num
        rw [harg, Int.floor_intCast]
      rw [gradientByte, hg, if_neg (by omega), if_pos (by omega)]
      decide
    · have hq : 3 * i / 256 = 2 := by omega
      have hg : gradientGray 3 i = 255 := by
        rw [hgray, hq]
        have harg : ((((2 : ℕ) : ℤ) : ℚ) / (((3 : ℕ) : ℚ) - 1) * 255) = ((255 : ℤ) : ℚ) := by
          push_cast
          norm_num
        rw [harg, round_intCast]
      rw [gradientByte, hg, if_neg (by omega), if_neg (by omega)]
      decide

set_option maxRecDepth 8192 in
/-- C3: the three-step lookup table has 256 samples, exactly 3 distinct
gray values, and is monotonically non-decreasing in the sample index. -/
theorem gradient_three_steps_distinct_monotone :
    (graySamples 3).length = 256 ∧
    (graySamples 3).dedup.length = 3 ∧
    List.Sorted (· ≤ ·) (graySamples 3) := by
  have hmap : graySamples 3 = (List.range 256).map
      (fun i => if i < 86 then (0 : ℕ) else if i < 171 then 128 else 255) := by
    unfold graySamples
    refine List.map_congr_left ?_
    intro i hi
    exact gradientByte_three i (List.mem_range.mp hi)
  rw [hmap]
  decide

/-- C4: each animation step overwrites the root yaw with the pure value
`sin(t*0.2)*0.3` (laptop) or `sin(t*0.15)*0.1` (building), independent of
the previous frame's yaw, bounded by the amplitude, and zero at `t = 0`. -/
theorem idle_yaw_oscillation (t p q : ℝ) :
    laptopYawStep t p = Real.sin (t * 0.2) * 0.3 ∧
    buildingYawStep t p = Real.sin (t * 0.15) * 0.1 ∧
    laptopYawStep t p = laptopYawStep t q ∧
    buildingYawStep t p = buildingYawStep t q ∧
    |laptopYawStep t p| ≤ 0.3 ∧
    |buildingYawStep t p| ≤ 0.1 ∧
    laptopYawStep 0 p = 0 ∧
    buildingYawStep 0 p = 0 := by
  have hsin1 := abs_le.mp (Real.abs_sin_le_one (t * 0.2))
  have hsin2 := abs_le.mp (Real.abs_sin_le_one (t * 0.15))
  refine ⟨rfl, rfl, rfl, rfl, ?_, ?_, ?_, ?_⟩
  · rw [laptopYawStep, abs_le]
    constructor <;> nlinarith [hsin1.1, hsin1.2]
  · rw [buildingYawStep, abs_le]
    constructor <;> nlinarith [hsin2.1, hsin2.2]
  · rw [laptopYawStep]
    norm_num
  · rw [buildingYawStep]
    norm_num

/-- C5: from any overlay state, notifying `bottom-left` and then
`top-right` ends with the active popup `top-right` and the stored code
text equal to the `top-right` config's initial code — the latest
notification wins without an intervening close. -/
theorem notify_latest_wins (s : OverlayState) :
    (handleWindowClick (handleWindowClick s "bottom-left") "top-right").activePopup
        = some "top-right" ∧
    (handleWindowClick (handleWindowClick s "bottom-left") "top-right").codeContent
        = topRightConfig.initialCode := by
  exact ⟨rfl, rfl⟩

/-- C7: closing an open popup yields the closed state, and a notification
for any id — from the closed state or from any state at all — always
activates that id; the overlay cannot get stuck. -/
theorem close_then_reopen (s : OverlayState) (windowId : String) :
    (handleClosePopup s).activePopup = none ∧
    (handleWindowClick (handleClosePopup s) windowId).activePopup = some windowId ∧
    (handleWindowClick s windowId).activePopup = some windowId := by
  refine ⟨rfl, ?_, ?_⟩ <;>
    cases hw : windowConfigs windowId <;>
      simp [handleWindowClick, hw]

/-- C8: in every overlay state at most one popup is rendered, and the
popup of a configured id is rendered exactly when the active identifier
equals that id. -/
theorem single_visible_popup (s : OverlayState) :
    (visiblePopups s).length ≤ 1 ∧
    ∀ windowId, windowId ∈ visiblePopups s ↔
      (windowId ∈ windowIds ∧ s.activePopup = some windowId) := by
  constructor
  · cases hA : s.activePopup with
    | none => simp [visiblePopups, popupVisible, hA, windowIds]
    | some a =>
      by_cases h1 : a = "bottom-left"
      · subst h1
        simp [visiblePopups, popupVisible, hA, windowIds]
      by_cases h2 : a = "bottom-right"
      · subst h2
        simp [visiblePopups, popupVisible, hA, windowIds]
      by_cases h3 : a = "top-left"
      · subst h3
        simp [visiblePopups, popupVisible, hA, windowIds]
      by_cases h4 : a = "top-right"
      · subst h4
        simp [visiblePopups, popupVisible, hA, windowIds]
      · simp [visiblePopups, popupVisible, hA, windowIds, h1, h2, h3, h4]
  · intro windowId
    simp [visiblePopups, popupVisible, List.mem_filter, eq_comm]

/-- C10: a notification whose id is not one of the four configured tags
leaves the stored code text unchanged, records the unknown id as active,
and renders no popup at all. -/
theorem unknown_notification_guarded (s : OverlayState) (windowId : String)
    (h : windowId ∉ windowIds) :
    (handleWindowClick s windowId).codeContent = s.codeContent ∧
    (handleWindowClick s windowId).activePopup = some windowId ∧
    visiblePopups (handleWindowClick s windowId) = [] := by
  have hne : windowId ≠ "bottom-left" ∧ windowId ≠ "bottom-right" ∧
      windowId ≠ "top-left" ∧ windowId ≠ "top-right" := by
    simpa [windowIds] using h
  obtain ⟨h1, h2, h3, h4⟩ := hne
  have hcfg : windowConfigs windowId = none := by
    rw [windowConfigs, if_neg h1, if_neg h2, if_neg h3, if_neg h4]
  refine ⟨?_, ?_, ?_⟩
  · simp [handleWindowClick, hcfg]
  · simp [handleWindowClick, hcfg]
  · simp [visiblePopups, popupVisible, handleWindowClick, hcfg, windowIds,
      h1, h2, h3, h4]

/-- Witness for C10: notifying the unconfigured id `attic` from a state
showing `top-left` keeps the stored text, activates `attic`, and renders
nothing. -/
theorem unknown_notification_guarded_witness :
    (handleWindowClick ⟨some "top-left", "seed"⟩ "attic").codeContent = "seed" ∧
    (handleWindowClick ⟨some "top-left", "seed"⟩ "attic").activePopup = some "attic" ∧
    visiblePopups (handleWindowClick ⟨some "top-left", "seed"⟩ "attic") = [] :=
  unknown_notification_guarded ⟨some "top-left", "seed"⟩ "attic" (by decide)

/-- C6 (failing input): mount the UI, open `top-right`, edit the textarea
to `hacked`, close, and notify `top-right` again.  The notification sets
the active id and resets the overlay's stored code text to the config's
initial code, but the editor buffer the popup displays still holds the
stale edit `hacked`, not the initial code: the local `useState` buffer is
never re-seeded after mount. -/
theorem stale_buffer_on_renotify :
    (uiRun [.notify "top-right", .edit "hacked", .close, .notify "top-right"]).overlay.activePopup
        = some "top-right" ∧
    (uiRun [.notify "top-right", .edit "hacked", .close, .notify "top-right"]).localCode "top-right"
        = "hacked" ∧
    (uiRun [.notify "top-right", .edit "hacked", .close, .notify "top-right"]).localCode "top-right"
        ≠ topRightConfig.initialCode ∧
    (uiRun [.notify "top-right", .edit "hacked", .close, .notify "top-right"]).overlay.codeContent
        = topRightConfig.initialCode := by
  refine ⟨rfl, rfl, ?_, rfl⟩
  decide

/-- C9 (counterexample): not every outline duplicate is the source mesh
scaled about the source mesh's local origin with identical geometry.  The
laptop touchpad outline's origin lands at `(0.51, 0.1224, 0.306)`, away
from the source origin `(0.5, 0.12, 0.3)`, because the outline wrapper
scales about the assembly origin; and the building roof outline's box
differs from its source's box. -/
theorem outline_not_scaled_about_source :
    ¬ ∀ p ∈ outlineSourcePairs,
        scaledAboutSourceOrigin p.1 p.2 ∧ p.1.geom = p.2.geom := by
  intro h
  have htp := (h (laptopTouchpadOutline, laptopTouchpadSrc)
    (by simp [outlineSourcePairs])).1
  obtain ⟨k, hk⟩ := htp
  have h0 := hk origin3
  simp only [laptopTouchpadOutline, laptopTouchpadSrc, outlineScale, origin3, smul3,
    applyChain, applyOp, List.foldr, Vec3.mk.injEq] at h0
  obtain ⟨hx, -, -⟩ := h0
  norm_num at hx

/-- C9 (amended): every outline duplicate mesh sits under the
`scale=[1.02,1.02,1.02]` wrapper and renders only back faces in the flat
color `#a99d9b`; the four laptop outlines and the building's main
silhouette repeat their source mesh's geometry and local placement
exactly (their placement is the source placement scaled uniformly by
1.02 about the assembly origin); the building roof silhouette instead
uses a nearby position `[0, 3.1, 1.55]` and thicker box `[6.2, 0.2, 0.2]`
than its source's `[0, 3.1, 1.60]` and `[6.2, 0.15, 0.15]`. -/
theorem outline_meshes_design :
    (∀ p ∈ outlineSourcePairs,
        p.1.mat = Mat.basic silhouetteColor FaceSide.back ∧
        p.1.chain.head? = some outlineScale) ∧
    (∀ p ∈ exactOutlinePairs,
        p.1.geom = p.2.geom ∧
        ∀ v : Vec3, applyChain p.1.chain v = smul3 1.02 (applyChain p.2.chain v)) ∧
    buildingRoofOutline.chain = [outlineScale, .translate 0 (31 / 10) (155 / 100)] ∧
    buildingRoofSrc.chain = [.translate 0 (31 / 10) (160 / 100)] ∧
    buildingRoofOutline.geom = .box (62 / 10) (2 / 10) (2 / 10) ∧
    buildingRoofSrc.geom = .box (62 / 10) (15 / 100) (15 / 100) := by
  refine ⟨?_, ?_, rfl, rfl, rfl, rfl⟩
  · intro p hp
    simp only [outlineSourcePairs, List.mem_cons, List.not_mem_nil, or_false] at hp
    rcases hp with rfl | rfl | rfl | rfl | rfl | rfl <;> exact ⟨rfl, rfl⟩
  · intro p hp
    simp only [exactOutlinePairs, List.mem_cons, List.not_mem_nil, or_false] at hp
    rcases hp with rfl | rfl | rfl | rfl | rfl <;>
      refine ⟨rfl, fun v => ?_⟩ <;>
        simp only [laptopBaseOutline, laptopBaseSrc, laptopPlateOutline, laptopPlateSrc,
          laptopTouchpadOutline, laptopTouchpadSrc, laptopLidOutline, laptopLidSrc,
          buildingMainOutline, buildingMainSrc, outlineScale, smul3,
          applyChain, applyOp, List.foldr, Vec3.mk.injEq] <;>
        refine ⟨?_, ?_, ?_⟩ <;> push_cast <;> ring

/-- Witness for C9: the laptop base outline is a back-face flat
`#a99d9b` mesh with exactly the base slab's box geometry. -/
theorem outline_meshes_design_witness :
    laptopBaseOutline.mat = Mat.basic silhouetteColor FaceSide.back ∧
    laptopBaseOutline.geom = laptopBaseSrc.geom := by
  have h := outline_meshes_design
  exact ⟨(h.1 (laptopBaseOutline, laptopBaseSrc) (by simp [outlineSourcePairs])).1,
    (h.2.1 (laptopBaseOutline, laptopBaseSrc) (by simp [exactOutlinePairs])).1⟩

end Portfolio
